import Mathlib

/-!
Verification of the Task State Segment (TSS) core of the x86_64 crate
(`src/structures/tss.rs`): the `TaskStateSegment` record, its zeroing
constructor, the `InvalidIoMap` error taxonomy, and the I/O permission
bitmap (IOPB) validator described in the specification.

Machine integers (`u8`, `u16`, `u32`, `u64`, `usize`) are embedded as
`Nat`; none of the operations involved can overflow (the validator only
compares its inputs, and the constructor only stores zeros), so no
modular reduction is needed.
-/

namespace X86Tss

/-- Opaque 64-bit canonical virtual address collaborator (`crate::VirtAddr`).
The core only needs its zero value. -/
structure VirtAddr where
  addr : Nat
deriving DecidableEq, Repr

/-- `VirtAddr::zero()`: the null virtual address. -/
def VirtAddr.zero : VirtAddr := ⟨0⟩

/-- `TaskStateSegment` from `src/structures/tss.rs`, fields in declaration
order.  The two stack tables are the 3-entry privilege stack table and the
7-entry interrupt stack table; reserved fields are the hardware padding. -/
structure TaskStateSegment where
  reserved_1 : Nat
  privilege_stack_table : Fin 3 → VirtAddr
  reserved_2 : Nat
  interrupt_stack_table : Fin 7 → VirtAddr
  reserved_3 : Nat
  reserved_4 : Nat
  iomap_base : Nat

/-- `TaskStateSegment::new`: a TSS with zeroed privilege and interrupt
stack tables, zero `iomap_base`, and zero reserved fields. -/
def TaskStateSegment.new : TaskStateSegment :=
  ⟨0, fun _ => VirtAddr.zero, 0, fun _ => VirtAddr.zero, 0, 0, 0⟩

/-- `InvalidIoMap` from `src/structures/tss.rs`: the four validation-time
error kinds, each carrying its diagnostic payload. -/
inductive InvalidIoMap where
  /-- The bitmap is more than `0xdfff` bytes from the start of the TSS. -/
  | TooFarFromTss (distance : Nat)
  /-- The final byte of the bitmap was not `0xff`. -/
  | InvalidTerminatingByte (byte : Nat)
  /-- The bitmap exceeds the maximum length (8193). -/
  | TooLong (len : Nat)
  /-- The `iomap_base` stored in the TSS was not what was expected. -/
  | InvalidBase (expected : Nat) (got : Nat)
deriving DecidableEq, Repr

/-- Modelled from the spec: the IOPB validator function is not part of
`src/structures/tss.rs` (only its error type `InvalidIoMap` is declared
there).  Following spec §4.2, it takes the candidate bitmap's geometry
(byte length, byte distance from the TSS start, final byte, and the TSS's
stored `iomap_base`) and runs four sequential short-circuit checks in the
fixed order length → distance → terminating byte → base consistency,
returning at the first violated rule; success carries no payload. -/
def validateIoMap (len distance byte base : Nat) : Except InvalidIoMap Unit :=
  if 8193 < len then
    Except.error (InvalidIoMap.TooLong len)
  else if 0xDFFF < distance then
    Except.error (InvalidIoMap.TooFarFromTss distance)
  else if byte ≠ 0xFF then
    Except.error (InvalidIoMap.InvalidTerminatingByte byte)
  else if base ≠ distance then
    Except.error (InvalidIoMap.InvalidBase distance base)
  else
    Except.ok ()

/-- Byte sizes of the primitive Rust types appearing in the TSS layout. -/
def sizeOfU32 : Nat := 4

def sizeOfU64 : Nat := 8

def sizeOfU16 : Nat := 2

def sizeOfVirtAddr : Nat := 8

/-- Sizes of the fields of `TaskStateSegment`, in declaration order:
`reserved_1 : u32`, `privilege_stack_table : [VirtAddr; 3]`,
`reserved_2 : u64`, `interrupt_stack_table : [VirtAddr; 7]`,
`reserved_3 : u64`, `reserved_4 : u16`, `iomap_base : u16`. -/
def tssFieldSizes : List Nat :=
  [sizeOfU32, 3 * sizeOfVirtAddr, sizeOfU64, 7 * sizeOfVirtAddr,
   sizeOfU64, sizeOfU16, sizeOfU16]

/-- Under `#[repr(C, packed)]` there is no implicit padding: field `i`
starts at the sum of the sizes of the fields declared before it. -/
def tssFieldOffset (i : Nat) : Nat := (tssFieldSizes.take i).sum

/-- Helper: the validator succeeds exactly on inputs satisfying all four
spec rules. -/
lemma validateIoMap_ok_iff (len distance byte base : Nat) :
    validateIoMap len distance byte base = Except.ok () ↔
      (len ≤ 8193 ∧ distance ≤ 0xDFFF ∧ byte = 0xFF ∧ base = distance) := by
  unfold validateIoMap
  by_cases h1 : 8193 < len
  · simp [h1, Nat.not_le.mpr h1]
  · by_cases h2 : 0xDFFF < distance
    · simp [h1, h2, Nat.not_le.mpr h2, Nat.not_lt.mp h1]
    · by_cases h3 : byte = 0xFF
      · by_cases h4 : base = distance
        · simp [h1, h2, h3, h4, Nat.not_lt.mp h1, Nat.not_lt.mp h2]
        · simp [h1, h2, h3, h4]
      · simp [h1, h2, h3]

/-- C1: for every IOPB candidate with length ≤ 8193, distance ≤ 0xDFFF,
terminating byte 0xFF, and stored `iomap_base` equal to the distance, the
validator returns success, which carries no payload (`Unit`). -/
theorem validateIoMap_success (len distance byte base : Nat)
    (hlen : len ≤ 8193) (hdist : distance ≤ 0xDFFF)
    (hbyte : byte = 0xFF) (hbase : base = distance) :
    validateIoMap len distance byte base = Except.ok () :=
  (validateIoMap_ok_iff len distance byte base).mpr ⟨hlen, hdist, hbyte, hbase⟩

/-- Witness for C1 at the spec's concrete scenario
(length 8193, distance 0x64, byte 0xFF, base 0x64). -/
theorem validateIoMap_success_witness :
    validateIoMap 8193 0x64 0xFF 0x64 = Except.ok () :=
  validateIoMap_success 8193 0x64 0xFF 0x64 (by decide) (by decide) rfl rfl

/-- C2: checks run in the fixed order length, distance, terminating byte,
base, stopping at the first violation: whenever both the length bound and
the distance bound are violated, the result is `TooLong` and is never
`TooFarFromTss`. -/
theorem validateIoMap_order_length_first (len distance byte base : Nat)
    (hlen : 8193 < len) (hdist : 0xDFFF < distance) :
    validateIoMap len distance byte base =
        Except.error (InvalidIoMap.TooLong len) ∧
      ∀ d : Nat, validateIoMap len distance byte base ≠
        Except.error (InvalidIoMap.TooFarFromTss d) := by
  have h : validateIoMap len distance byte base =
      Except.error (InvalidIoMap.TooLong len) := by
    unfold validateIoMap
    simp [hlen]
  refine ⟨h, fun d hc => ?_⟩
  rw [h] at hc
  exact InvalidIoMap.noConfusion (Except.error.inj hc)

/-- Witness for C2: length 8194 and distance 0xE000 both violate their
bounds; the result is `TooLong 8194`, not `TooFarFromTss`. -/
theorem validateIoMap_order_length_first_witness :
    validateIoMap 8194 0xE000 0xFF 0xE000 =
        Except.error (InvalidIoMap.TooLong 8194) ∧
      ∀ d : Nat, validateIoMap 8194 0xE000 0xFF 0xE000 ≠
        Except.error (InvalidIoMap.TooFarFromTss d) :=
  validateIoMap_order_length_first 8194 0xE000 0xFF 0xE000
    (by decide) (by decide)

/-- C3: for every input with length > 8193, the validator returns
`TooLong` carrying exactly the observed length, regardless of the other
three parameters. -/
theorem validateIoMap_tooLong (len distance byte base : Nat)
    (hlen : 8193 < len) :
    validateIoMap len distance byte base =
      Except.error (InvalidIoMap.TooLong len) := by
  unfold validateIoMap
  simp [hlen]

/-- Witness for C3 at length 8194 (spec's scenario), with the other
parameters otherwise arbitrary. -/
theorem validateIoMap_tooLong_witness :
    validateIoMap 8194 0x64 0xFF 0x64 =
      Except.error (InvalidIoMap.TooLong 8194) :=
  validateIoMap_tooLong 8194 0x64 0xFF 0x64 (by decide)

/-- C4: for every input with valid length but distance > 0xDFFF, the
validator returns `TooFarFromTss` carrying exactly the observed
distance. -/
theorem validateIoMap_tooFar (len distance byte base : Nat)
    (hlen : len ≤ 8193) (hdist : 0xDFFF < distance) :
    validateIoMap len distance byte base =
      Except.error (InvalidIoMap.TooFarFromTss distance) := by
  unfold validateIoMap
  simp [Nat.not_lt.mpr hlen, hdist]

/-- Witness for C4 at distance 0xE000 (spec's scenario). -/
theorem validateIoMap_tooFar_witness :
    validateIoMap 8193 0xE000 0xFF 0x64 =
      Except.error (InvalidIoMap.TooFarFromTss 0xE000) :=
  validateIoMap_tooFar 8193 0xE000 0xFF 0x64 (by decide) (by decide)

/-- C5: for every input with valid length and distance but final byte
≠ 0xFF, the validator returns `InvalidTerminatingByte` carrying the
observed byte. -/
theorem validateIoMap_invalidByte (len distance byte base : Nat)
    (hlen : len ≤ 8193) (hdist : distance ≤ 0xDFFF) (hbyte : byte ≠ 0xFF) :
    validateIoMap len distance byte base =
      Except.error (InvalidIoMap.InvalidTerminatingByte byte) := by
  unfold validateIoMap
  simp [Nat.not_lt.mpr hlen, Nat.not_lt.mpr hdist, hbyte]

/-- Witness for C5 at terminating byte 0 (spec's scenario). -/
theorem validateIoMap_invalidByte_witness :
    validateIoMap 8193 0x64 0 0x64 =
      Except.error (InvalidIoMap.InvalidTerminatingByte 0) :=
  validateIoMap_invalidByte 8193 0x64 0 0x64 (by decide) (by decide) (by decide)

/-- C6: for every input passing the length, distance and terminating-byte
checks but whose stored `iomap_base` differs from the distance, the
validator returns `InvalidBase` with `expected` equal to the distance and
`got` equal to the stored base. -/
theorem validateIoMap_invalidBase (len distance byte base : Nat)
    (hlen : len ≤ 8193) (hdist : distance ≤ 0xDFFF) (hbyte : byte = 0xFF)
    (hbase : base ≠ distance) :
    validateIoMap len distance byte base =
      Except.error (InvalidIoMap.InvalidBase distance base) := by
  unfold validateIoMap
  simp [Nat.not_lt.mpr hlen, Nat.not_lt.mpr hdist, hbyte, hbase]

/-- Witness for C6 at stored base 0x65 against distance 0x64 (spec's
scenario): expected is the distance, got is the stored base. -/
theorem validateIoMap_invalidBase_witness :
    validateIoMap 8193 0x64 0xFF 0x65 =
      Except.error (InvalidIoMap.InvalidBase 0x64 0x65) :=
  validateIoMap_invalidBase 8193 0x64 0xFF 0x65
    (by decide) (by decide) rfl (by decide)

/-- C7: `TaskStateSegment::new` yields an instance whose 3 privilege
stack-table slots and 7 interrupt stack-table slots are all the null
virtual address, whose `iomap_base` is 0, and whose reserved fields are
all zero; as a total Lean definition it cannot fail. -/
theorem taskStateSegment_new_zeroed :
    (∀ i : Fin 3, TaskStateSegment.new.privilege_stack_table i
        = VirtAddr.zero) ∧
    (∀ i : Fin 7, TaskStateSegment.new.interrupt_stack_table i
        = VirtAddr.zero) ∧
    TaskStateSegment.new.iomap_base = 0 ∧
    TaskStateSegment.new.reserved_1 = 0 ∧
    TaskStateSegment.new.reserved_2 = 0 ∧
    TaskStateSegment.new.reserved_3 = 0 ∧
    TaskStateSegment.new.reserved_4 = 0 :=
  ⟨fun _ => rfl, fun _ => rfl, rfl, rfl, rfl, rfl, rfl⟩

/-- C8: under `#[repr(C, packed)]` (offset of each field = sum of the
sizes of the earlier fields, no implicit padding) the field byte offsets
are exactly: `reserved_1` (4 bytes) at 0, the 3 privilege stack pointers
(8 bytes each) at 4, `reserved_2` (8 bytes) at 28, the 7 IST pointers at
36, `reserved_3` at 92, `reserved_4` at 100, and the 2-byte `iomap_base`
at 102, for a total size of 104 bytes. -/
theorem taskStateSegment_packed_layout :
    tssFieldOffset 0 = 0 ∧
    tssFieldOffset 1 = 4 ∧
    tssFieldOffset 2 = 28 ∧
    tssFieldOffset 3 = 36 ∧
    tssFieldOffset 4 = 92 ∧
    tssFieldOffset 5 = 100 ∧
    tssFieldOffset 6 = 102 ∧
    tssFieldSizes.sum = 104 := by
  refine ⟨?_, ?_, ?_, ?_, ?_, ?_, ?_, ?_⟩ <;> decide

/-- C9: validation is a pure, deterministic, total function of its four
inputs: equal inputs produce equal results; on every input it returns an
ordinary result value (success or one of the errors, never a panic); and
it reports exactly the malformed inputs through the error side of the
result. -/
theorem validateIoMap_pure_deterministic
    (l₁ d₁ b₁ s₁ l₂ d₂ b₂ s₂ : Nat)
    (hl : l₁ = l₂) (hd : d₁ = d₂) (hb : b₁ = b₂) (hs : s₁ = s₂) :
    validateIoMap l₁ d₁ b₁ s₁ = validateIoMap l₂ d₂ b₂ s₂ ∧
    (validateIoMap l₁ d₁ b₁ s₁ = Except.ok () ∨
      ∃ e : InvalidIoMap, validateIoMap l₁ d₁ b₁ s₁ = Except.error e) ∧
    (¬(l₁ ≤ 8193 ∧ d₁ ≤ 0xDFFF ∧ b₁ = 0xFF ∧ s₁ = d₁) ↔
      ∃ e : InvalidIoMap, validateIoMap l₁ d₁ b₁ s₁ = Except.error e) := by
  subst hl hd hb hs
  refine ⟨rfl, ?_, ?_⟩
  · cases h : validateIoMap l₁ d₁ b₁ s₁ with
    | ok u => exact Or.inl (by cases u; rfl)
    | error e => exact Or.inr ⟨e, rfl⟩
  · constructor
    · intro hbad
      cases h : validateIoMap l₁ d₁ b₁ s₁ with
      | ok u =>
        cases u
        exact absurd ((validateIoMap_ok_iff l₁ d₁ b₁ s₁).mp h) hbad
      | error e => exact ⟨e, rfl⟩
    · rintro ⟨e, he⟩ hgood
      have := (validateIoMap_ok_iff l₁ d₁ b₁ s₁).mpr hgood
      rw [he] at this
      exact Except.noConfusion this

/-- Witness for C9 at the spec's valid concrete scenario. -/
theorem validateIoMap_pure_deterministic_witness :
    validateIoMap 8193 0x64 0xFF 0x64 = validateIoMap 8193 0x64 0xFF 0x64 ∧
    (validateIoMap 8193 0x64 0xFF 0x64 = Except.ok () ∨
      ∃ e : InvalidIoMap,
        validateIoMap 8193 0x64 0xFF 0x64 = Except.error e) ∧
    (¬((8193 : Nat) ≤ 8193 ∧ (0x64 : Nat) ≤ 0xDFFF ∧ (0xFF : Nat) = 0xFF ∧
        (0x64 : Nat) = 0x64) ↔
      ∃ e : InvalidIoMap,
        validateIoMap 8193 0x64 0xFF 0x64 = Except.error e) :=
  validateIoMap_pure_deterministic 8193 0x64 0xFF 0x64 8193 0x64 0xFF 0x64
    rfl rfl rfl rfl

/-- C10: `InvalidIoMap` has decidable structural equality: `decide`
settles every equation, payload-carrying constructors are injective
(equal exactly when their payloads are equal), distinct variants are
never equal, and equality is reflexive, symmetric and transitive. -/
theorem invalidIoMap_structural_eq :
    (∀ x y : InvalidIoMap, x = y ↔ decide (x = y) = true) ∧
    (∀ l₁ l₂ : Nat,
      InvalidIoMap.TooLong l₁ = InvalidIoMap.TooLong l₂ ↔ l₁ = l₂) ∧
    (∀ d₁ d₂ : Nat,
      InvalidIoMap.TooFarFromTss d₁ = InvalidIoMap.TooFarFromTss d₂ ↔
        d₁ = d₂) ∧
    (∀ b₁ b₂ : Nat,
      InvalidIoMap.InvalidTerminatingByte b₁ =
          InvalidIoMap.InvalidTerminatingByte b₂ ↔ b₁ = b₂) ∧
    (∀ e₁ g₁ e₂ g₂ : Nat,
      InvalidIoMap.InvalidBase e₁ g₁ = InvalidIoMap.InvalidBase e₂ g₂ ↔
        e₁ = e₂ ∧ g₁ = g₂) ∧
    (∀ l d : Nat,
      InvalidIoMap.TooLong l ≠ InvalidIoMap.TooFarFromTss d) ∧
    (∀ x : InvalidIoMap, x = x) ∧
    (∀ x y : InvalidIoMap, x = y → y = x) ∧
    (∀ x y z : InvalidIoMap, x = y → y = z → x = z) := by
  refine ⟨?_, ?_, ?_, ?_, ?_, ?_, ?_, ?_, ?_⟩
  · intro x y; exact decide_eq_true_iff.symm
  · intro l₁ l₂
    exact ⟨fun h => by injection h, fun h => by rw [h]⟩
  · intro d₁ d₂
    exact ⟨fun h => by injection h, fun h => by rw [h]⟩
  · intro b₁ b₂
    exact ⟨fun h => by injection h, fun h => by rw [h]⟩
  · intro e₁ g₁ e₂ g₂
    constructor
    · intro h; injection h with h₁ h₂; exact ⟨h₁, h₂⟩
    · rintro ⟨h₁, h₂⟩; rw [h₁, h₂]
  · intro l d h; exact InvalidIoMap.noConfusion h
  · intro x; rfl
  · intro x y h; exact h.symm
  · intro x y z h₁ h₂; exact h₁.trans h₂

end X86Tss
